import Mathlib

/-!
Verification development for `tune_autotvm.py` (TLCBench).

The script is sequential glue around the TVM autotuning library.  We embed it
shallowly: external library calls (network loading, task extraction, the
actual tuner search, the graph tuner) are recorded as events in a trace, and
the filesystem is a list of existing paths.  Machine-level effects the script
itself performs (path construction, file deletion, directory creation,
branching on the network name and target keys, argument handling) are
translated faithfully from the source.
-/

namespace TuneAutotvm

/-- A TVM compilation target: the raw target string given on the command line
together with its device keys (`target.keys` in the source; e.g. an `llvm`
target has key `"cpu"`, a `cuda` target has keys `["cuda", "gpu"]`).  The
keys are produced by `tvm.target.Target`, which is external, so they are a
parameter of the model. -/
structure Target where
  raw : String
  keys : List String
deriving DecidableEq, Repr

/-- Configuration recorded for `autotvm.LocalBuilder(...)`: only the `timeout`
keyword is ever passed; `none` means the keyword was not given. -/
structure LocalBuilderCfg where
  timeout : Option Nat
deriving DecidableEq, Repr

/-- Configuration recorded for `autotvm.LocalRunner(...)`.  `repeat_n` stands
for the source keyword `repeat` (a reserved word in Lean); `none` for
`timeout` and `false` for `enable_cpu_cache_flush` mean the keyword was not
passed. -/
structure LocalRunnerCfg where
  number : Nat
  repeat_n : Nat
  min_repeat_ms : Nat
  timeout : Option Nat
  enable_cpu_cache_flush : Bool
deriving DecidableEq, Repr

/-- The record built by `autotvm.measure_option(builder=..., runner=...)`. -/
structure MeasureOption where
  builder : LocalBuilderCfg
  runner : LocalRunnerCfg
deriving DecidableEq, Repr

/-- The `tuning_option` dictionary returned by `autotvm_tuning_opt`. -/
structure TuningOption where
  log_filename : String
  tuner : String
  early_stopping : Option Nat
  measure_option : MeasureOption
deriving DecidableEq, Repr

/-- The function `autotvm_tuning_opt(target, log_file, dtype="float32")`:
CPU targets get `LocalRunner(number=1, repeat=10, min_repeat_ms=0,
enable_cpu_cache_flush=True)` with a default `LocalBuilder()`; all other
targets get `LocalBuilder(timeout=10)` with `LocalRunner(number=20, repeat=3,
timeout=4, min_repeat_ms=150)`.  The returned dictionary always carries the
log file name, tuner `"xgb"` and `early_stopping=None`.  The `dtype`
parameter is unused, as in the source. -/
def autotvm_tuning_opt (target : Target) (log_file : String) (dtype : String) : TuningOption :=
  let measure_option : MeasureOption :=
    if target.keys.contains "cpu" then
      { builder := { timeout := none },
        runner := { number := 1, repeat_n := 10, min_repeat_ms := 0,
                    timeout := none, enable_cpu_cache_flush := true } }
    else
      { builder := { timeout := some 10 },
        runner := { number := 20, repeat_n := 3, min_repeat_ms := 150,
                    timeout := some 4, enable_cpu_cache_flush := false } }
  { log_filename := log_file, tuner := "xgb", early_stopping := none,
    measure_option := measure_option }

/-- An extracted tuning task.  Tasks come from the external
`autotvm.task.extract_from_program`; the script only reads
`len(tsk.config_space)`, which we keep as `config_space_len`. -/
structure Task where
  name : String
  config_space_len : Nat
deriving DecidableEq, Repr

/-- The tuner object constructed in `tune_kernels`, recording the constructor
and its arguments (`XGBTuner(tsk, loss_type="rank")`, `GATuner(tsk,
pop_size=100)`, `RandomTuner(tsk)`, `GridSearchTuner(tsk)`). -/
inductive TunerObj where
  | xgb (loss_type : String)
  | ga (pop_size : Nat)
  | random
  | gridsearch
deriving DecidableEq, Repr

/-- Dispatch on the tuner name, as in `tune_kernels`: the five recognized
names build a tuner object, anything else raises
`ValueError("Invalid tuner: " + tuner)`. -/
def create_tuner_obj (tuner : String) (tsk : Task) : Except String TunerObj :=
  if tuner = "xgb" ∨ tuner = "xgb-rank" then .ok (.xgb "rank")
  else if tuner = "ga" then .ok (.ga 100)
  else if tuner = "random" then .ok .random
  else if tuner = "gridsearch" then .ok .gridsearch
  else .error ("Invalid tuner: " ++ tuner)

/-- Rendering of `"%2d" % n` for the values that occur here (naturals): left-padded with a
space to width 2. -/
def pct2d (n : Nat) : String :=
  if n < 10 then " " ++ toString n else toString n

/-- The progress-bar label `"[Task %2d/%2d] " % (i + 1, len(tasks))` (the
source local variable `prefix`). -/
def task_label (i total : Nat) : String :=
  "[Task " ++ pct2d (i + 1) ++ "/" ++ pct2d total ++ "] "

/-- A callback passed to `tuner_obj.tune`: `autotvm.callback.progress_bar`
(with its total and label, the source keyword `prefix` kept as `label`) or
`autotvm.callback.log_to_file`. -/
inductive Callback where
  | progress_bar (total : Nat) (label : String)
  | log_to_file (filename : String)
deriving DecidableEq, Repr

/-- One call to `tuner_obj.tune(...)` in `tune_kernels`, recording the tuner
object it was called on, the task being tuned and all arguments. -/
structure TuneEvent where
  tuner_obj : TunerObj
  task : Task
  n_trial : Nat
  early_stopping : Option Nat
  measure_option : MeasureOption
  callbacks : List Callback
deriving DecidableEq, Repr

/-- The loop body of `tune_kernels` over the already-reversed task list,
carrying the running index `i` and the original `len(tasks)` as `total`.
A `ValueError` from tuner creation aborts the loop: the events produced so
far are kept and the error is reported; no `tune` call is recorded for the
failing task or any later one. -/
def tune_kernels_go (total : Nat) (measure_option : MeasureOption) (tuner : String)
    (n_trial : Nat) (early_stopping : Option Nat) (log_filename : String) :
    List Task → Nat → List TuneEvent × Option String
  | [], _ => ([], none)
  | tsk :: rest, i =>
    match create_tuner_obj tuner tsk with
    | .error e => ([], some e)
    | .ok tuner_obj =>
      let tsk_trial := min n_trial tsk.config_space_len
      let ev : TuneEvent :=
        { tuner_obj := tuner_obj, task := tsk, n_trial := tsk_trial,
          early_stopping := early_stopping, measure_option := measure_option,
          callbacks := [.progress_bar tsk_trial (task_label i total),
                        .log_to_file log_filename] }
      let rec_result := tune_kernels_go total measure_option tuner n_trial early_stopping
          log_filename rest (i + 1)
      (ev :: rec_result.1, rec_result.2)

/-- The function `tune_kernels(tasks, measure_option, tuner, n_trial, early_stopping,
log_filename)`: iterate over `reversed(tasks)` with `enumerate`, create one
tuner object per task, and call `tune` once per task with
`n_trial=min(n_trial, len(tsk.config_space))` and the two callbacks.
Returns the trace of `tune` calls and `some msg` when a `ValueError` was
raised. -/
def tune_kernels (tasks : List Task) (measure_option : MeasureOption) (tuner : String)
    (n_trial : Nat) (early_stopping : Option Nat) (log_filename : String) :
    List TuneEvent × Option String :=
  tune_kernels_go tasks.length measure_option tuner n_trial early_stopping log_filename
    tasks.reverse 0

/-- The call made by `tune_graph(graph, dshape, records, opt_sch_file, target,
input_name, use_DP=True)`: a `DPTuner` (or `PBQPTuner`) over the op list
`[nn.conv2d]`, `benchmark_layout_transform(min_exec_num=2000)`, `run()`, and
`write_opt_sch2record_file(opt_sch_file)`. -/
structure TuneGraphCall where
  records : String
  opt_sch_file : String
  target : Target
  input_name : String
  use_DP : Bool
  target_ops : List String
  min_exec_num : Nat
deriving DecidableEq, Repr

/-- Embedding of `tune_graph` as a record of the external calls it makes. -/
def tune_graph (records opt_sch_file : String) (target : Target) (input_name : String)
    (use_DP : Bool) : TuneGraphCall :=
  { records := records, opt_sch_file := opt_sch_file, target := target,
    input_name := input_name, use_DP := use_DP,
    target_ops := ["nn.conv2d"], min_exec_num := 2000 }

/-- Strip trailing `'/'` characters (the tail step of the
`os.path.dirname`). -/
def rstripSlash (s : String) : String :=
  String.mk (s.toList.reverse.dropWhile (fun c => c = '/')).reverse

/-- Model of `os.path.dirname`: everything up to the last `'/'`, with trailing slashes
stripped unless the head is all slashes (so `dirname "a/b" = "a"`,
`dirname "/a" = "/"`, `dirname "a" = ""`). -/
def dirname (p : String) : String :=
  let keep := p.toList.reverse.dropWhile (fun c => c ≠ '/')
  let head := String.mk keep.reverse
  if keep = [] then ""
  else if keep.all (fun c => c = '/') then head
  else rstripSlash head

/-- Normalize a path the way the filesystem resolves it for `mkdir`/`exists`:
trailing slashes are irrelevant (except on an all-slash path). -/
def normalize_path (p : String) : String :=
  if rstripSlash p = "" then p else rstripSlash p

/-- The filesystem is the list of existing (normalized) paths.
`os.path.exists`. -/
def os_path_exists (fs : List String) (p : String) : Bool :=
  fs.contains (normalize_path p)

/-- Model of `os.mkdir`: creates exactly one directory level; fails with
`FileNotFoundError` when the parent does not exist and with `FileExistsError`
when the path itself already does.  It never creates intermediate
directories (that would be `os.makedirs`). -/
def os_mkdir (fs : List String) (p : String) : Except String (List String) :=
  let q := normalize_path p
  let d := dirname q
  if d ≠ "" ∧ ¬ fs.contains d then .error ("FileNotFoundError: " ++ p)
  else if fs.contains q then .error ("FileExistsError: " ++ p)
  else .ok (q :: fs)

/-- Whether `pre` starts `s` (list-level equivalent of `String.startsWith`,
kept executable down to the kernel). -/
def str_startsWith (s pre : String) : Bool :=
  pre.toList.isPrefixOf s.toList

/-- Whether `suf` ends `s` (list-level equivalent of `String.endsWith`). -/
def str_endsWith (s suf : String) : Bool :=
  suf.toList.reverse.isPrefixOf s.toList.reverse

/-- Model of `os.path.join` for the two-argument case used here. -/
def os_path_join (a b : String) : String :=
  if str_startsWith b "/" then b
  else if a = "" then b
  else if str_endsWith a "/" then a ++ b
  else a ++ "/" ++ b

/-- One observable step of `autotvm_tune`: file deletion, the external
`get_network` load, the layout-conversion pass, task extraction (with the op
names passed to `extract_from_program`), the `tune_kernels` call (with the
options it was given, its trace and its error, if any), and the `tune_graph`
call. -/
inductive RunEvent where
  | removeFile (path : String)
  | getNetwork (network : String)
  | convertLayout (op : String) (layouts : List String)
  | extractTasks (ops : List String)
  | kernelsTuned (opt : TuningOption) (trace : List TuneEvent) (err : Option String)
  | graphTuned (call : TuneGraphCall)
deriving DecidableEq, Repr

/-- Model of `if os.path.exists(p): os.remove(p)` on a plain file path: returns the
new filesystem and the delete events performed (no error either way). -/
def delete_if_exists (fs : List String) (p : String) : List String × List RunEvent :=
  if fs.contains p then (fs.filter (fun q => q != p), [.removeFile p]) else (fs, [])

/-- Result of one `autotvm_tune` run: final filesystem, event trace, and the
uncaught exception if one was raised. -/
structure RunResult where
  fs : List String
  events : List RunEvent
  err : Option String
deriving DecidableEq, Repr

/-- The function `autotvm_tune(network, target, input_name, log_prefix)` (the source
parameter `log_prefix` is kept as `log_stem`).  It derives the two log paths,
deletes whichever of them exists, loads the network, then branches: for
`"bert"` it extracts `nn.batch_matmul`/`nn.dense` tasks and tunes kernels;
for every other network it converts the layout to NCHW, extracts `nn.conv2d`
tasks, tunes kernels, and — on CPU targets — runs `tune_graph` with the
kernel log as records and the graph log as output.  The extracted task list
comes from the external library and is a parameter.  An exception from
`tune_kernels` propagates, skipping the graph pass. -/
def autotvm_tune (network : String) (target : Target) (input_name : String)
    (log_stem : String) (fs : List String) (tasks : List Task) : RunResult :=
  let graph_log := log_stem ++ "_graph.log"
  let kernel_log := log_stem ++ "_kernel.log"
  let step1 := delete_if_exists fs kernel_log
  let step2 := delete_if_exists step1.1 graph_log
  if network = "bert" then
    let tuning_opt := autotvm_tuning_opt target kernel_log "float32"
    let tk := tune_kernels tasks tuning_opt.measure_option tuning_opt.tuner 1000
        tuning_opt.early_stopping tuning_opt.log_filename
    { fs := step2.1,
      events := step1.2 ++ step2.2 ++
        [.getNetwork network, .extractTasks ["nn.batch_matmul", "nn.dense"],
         .kernelsTuned tuning_opt tk.1 tk.2],
      err := tk.2 }
  else
    let tuning_opt := autotvm_tuning_opt target kernel_log "float32"
    let tk := tune_kernels tasks tuning_opt.measure_option tuning_opt.tuner 1000
        tuning_opt.early_stopping tuning_opt.log_filename
    let base := step1.2 ++ step2.2 ++
      [.getNetwork network, .convertLayout "nn.conv2d" ["NCHW", "default"],
       .extractTasks ["nn.conv2d"], .kernelsTuned tuning_opt tk.1 tk.2]
    if tk.2 = none ∧ target.keys.contains "cpu" then
      { fs := step2.1,
        events := base ++ [.graphTuned (tune_graph kernel_log graph_log target input_name true)],
        err := tk.2 }
    else
      { fs := step2.1, events := base, err := tk.2 }

/-- The parsed command-line arguments (`argparse` namespace). -/
structure Args where
  network : Option String
  target : String
  logdir : String
  thread : Int
  inputname : String
deriving DecidableEq, Repr

/-- The `choices` list of the `--network` flag. -/
def network_choices : List String := ["resnet-50", "mobilenet_v2", "bert", "all"]

/-- How argparse handles `--network`: an omitted flag parses to `None`; a
given value is accepted exactly when it is one of the `choices`. -/
def parse_args_network (v : Option String) : Except String (Option String) :=
  match v with
  | none => .ok none
  | some s =>
    if network_choices.contains s then .ok (some s)
    else .error ("argument --network: invalid choice: " ++ s)

/-- The selection `if args.network is None or args.network == "all": networks = [...] else
[args.network]`. -/
def select_networks (network : Option String) : List String :=
  match network with
  | none => ["resnet-50", "mobilenet_v2", "bert"]
  | some s => if s = "all" then ["resnet-50", "mobilenet_v2", "bert"] else [s]

/-- The variable `target_name` in the source: `"cpu"` when `"cpu" in target.keys`, else
`"cuda"`. -/
def target_name_of (target : Target) : String :=
  if target.keys.contains "cpu" then "cpu" else "cuda"

/-- An observable step of `__main__`: the `os.mkdir` call, or one
`autotvm_tune` run (network, the `log_prefix` passed in — kept as `stem` —
and the events of the run). -/
inductive MainEvent where
  | mkdirCall (path : String)
  | tuned (network : String) (stem : String) (events : List RunEvent)
deriving DecidableEq, Repr

/-- Result of the main loop: filesystem, events, uncaught exception. -/
structure LoopResult where
  fs : List String
  events : List MainEvent
  err : Option String
deriving DecidableEq, Repr

/-- The `for network in networks` loop of `__main__`: per network, build
`log_prefix = os.path.join(args.logdir, "autotvm_" + target_name + "_" +
network)` and run `autotvm_tune`; an exception aborts the loop. -/
def main_loop (target : Target) (inputname logdir : String)
    (task_oracle : String → List Task) :
    List String → List String → LoopResult
  | fs, [] => { fs := fs, events := [], err := none }
  | fs, nw :: rest =>
    let stem := os_path_join logdir ("autotvm_" ++ target_name_of target ++ "_" ++ nw)
    let r := autotvm_tune nw target inputname stem fs (task_oracle nw)
    match r.err with
    | some e => { fs := r.fs, events := [.tuned nw stem r.events], err := some e }
    | none =>
      let rest' := main_loop target inputname logdir task_oracle r.fs rest
      { fs := rest'.fs, events := .tuned nw stem r.events :: rest'.events, err := rest'.err }

/-- The `__main__` block: parse `--network` against its choices, select the networks,
create the log directory when it does not exist (`os.mkdir`, one level),
construct the target (its keys come from the external `tvm.target.Target`
and are a parameter), and tune each selected network.  An argparse
rejection, a `mkdir` failure or an uncaught exception from tuning yields
`.error`. -/
def main_run (args : Args) (target_keys : List String) (fs0 : List String)
    (task_oracle : String → List Task) :
    Except String (List String × List MainEvent) :=
  match parse_args_network args.network with
  | .error e => .error e
  | .ok nwopt =>
    let networks := select_networks nwopt
    let step1 : Except String (List String × List MainEvent) :=
      if os_path_exists fs0 args.logdir then .ok (fs0, [])
      else
        match os_mkdir fs0 args.logdir with
        | .ok fs => .ok (fs, [.mkdirCall args.logdir])
        | .error e => .error e
    match step1 with
    | .error e => .error e
    | .ok fsev =>
      let target : Target := { raw := args.target, keys := target_keys }
      let r := main_loop target args.inputname args.logdir task_oracle fsev.1 networks
      match r.err with
      | some e => .error e
      | none => .ok (r.fs, fsev.2 ++ r.events)

/-! ### Trace accessors -/

/-- The `tune_graph` calls recorded in a run trace. -/
def graph_calls : List RunEvent → List TuneGraphCall
  | [] => []
  | .graphTuned c :: r => c :: graph_calls r
  | _ :: r => graph_calls r

/-- The `tune_kernels` invocations recorded in a run trace (options, trace,
error). -/
def kernels_calls : List RunEvent → List (TuningOption × List TuneEvent × Option String)
  | [] => []
  | .kernelsTuned opt trace err :: r => (opt, trace, err) :: kernels_calls r
  | _ :: r => kernels_calls r

/-- The paths deleted in a run trace, in order. -/
def removals : List RunEvent → List String
  | [] => []
  | .removeFile p :: r => p :: removals r
  | _ :: r => removals r

/-- The networks tuned by `__main__`, in order. -/
def tuned_networks : List MainEvent → List String
  | [] => []
  | .tuned nw _ _ :: r => nw :: tuned_networks r
  | .mkdirCall _ :: r => tuned_networks r

/-- The `log_prefix` values `__main__` passed to `autotvm_tune`, in order. -/
def tuned_stems : List MainEvent → List String
  | [] => []
  | .tuned _ stem _ :: r => stem :: tuned_stems r
  | .mkdirCall _ :: r => tuned_stems r

@[simp] theorem graph_calls_nil : graph_calls [] = [] := rfl

@[simp] theorem graph_calls_cons (e : RunEvent) (r : List RunEvent) :
    graph_calls (e :: r) =
      (match e with | .graphTuned c => [c] | _ => []) ++ graph_calls r := by
  cases e <;> rfl

@[simp] theorem graph_calls_append (a b : List RunEvent) :
    graph_calls (a ++ b) = graph_calls a ++ graph_calls b := by
  induction a with
  | nil => rfl
  | cons e r ih => cases e <;> simp [graph_calls, ih]

@[simp] theorem kernels_calls_nil : kernels_calls [] = [] := rfl

@[simp] theorem kernels_calls_cons (e : RunEvent) (r : List RunEvent) :
    kernels_calls (e :: r) =
      (match e with | .kernelsTuned opt trace err => [(opt, trace, err)] | _ => []) ++
        kernels_calls r := by
  cases e <;> rfl

@[simp] theorem kernels_calls_append (a b : List RunEvent) :
    kernels_calls (a ++ b) = kernels_calls a ++ kernels_calls b := by
  induction a with
  | nil => rfl
  | cons e r ih => cases e <;> simp [kernels_calls, ih]

@[simp] theorem removals_nil : removals [] = [] := rfl

@[simp] theorem removals_cons (e : RunEvent) (r : List RunEvent) :
    removals (e :: r) =
      (match e with | .removeFile p => [p] | _ => []) ++ removals r := by
  cases e <;> rfl

@[simp] theorem removals_append (a b : List RunEvent) :
    removals (a ++ b) = removals a ++ removals b := by
  induction a with
  | nil => rfl
  | cons e r ih => cases e <;> simp [removals, ih]

@[simp] theorem tuned_networks_nil : tuned_networks [] = [] := rfl

@[simp] theorem tuned_networks_cons (e : MainEvent) (r : List MainEvent) :
    tuned_networks (e :: r) =
      (match e with | .tuned nw _ _ => [nw] | _ => []) ++ tuned_networks r := by
  cases e <;> rfl

@[simp] theorem tuned_networks_append (a b : List MainEvent) :
    tuned_networks (a ++ b) = tuned_networks a ++ tuned_networks b := by
  induction a with
  | nil => rfl
  | cons e r ih => cases e <;> simp [tuned_networks, ih]

@[simp] theorem tuned_stems_nil : tuned_stems [] = [] := rfl

@[simp] theorem tuned_stems_cons (e : MainEvent) (r : List MainEvent) :
    tuned_stems (e :: r) =
      (match e with | .tuned _ stem _ => [stem] | _ => []) ++ tuned_stems r := by
  cases e <;> rfl

@[simp] theorem tuned_stems_append (a b : List MainEvent) :
    tuned_stems (a ++ b) = tuned_stems a ++ tuned_stems b := by
  induction a with
  | nil => rfl
  | cons e r ih => cases e <;> simp [tuned_stems, ih]

/-! ### Kernel-tuning lemmas -/

/-- The five tuner names `tune_kernels` recognizes. -/
def valid_tuners : List String := ["xgb", "xgb-rank", "ga", "random", "gridsearch"]

/-- The tuner object `tune_kernels` builds for a recognized tuner name. -/
def tuner_obj_for (tuner : String) : TunerObj :=
  if tuner = "xgb" ∨ tuner = "xgb-rank" then .xgb "rank"
  else if tuner = "ga" then .ga 100
  else if tuner = "random" then .random
  else .gridsearch

/-- The `tune` call `tune_kernels` makes for the task at position `i` of the
reversed task list. -/
def tune_event_for (measure_option : MeasureOption) (tuner : String) (n_trial : Nat)
    (early_stopping : Option Nat) (log_filename : String) (total : Nat)
    (p : Nat × Task) : TuneEvent :=
  { tuner_obj := tuner_obj_for tuner, task := p.2,
    n_trial := min n_trial p.2.config_space_len,
    early_stopping := early_stopping, measure_option := measure_option,
    callbacks := [.progress_bar (min n_trial p.2.config_space_len) (task_label p.1 total),
                  .log_to_file log_filename] }

theorem create_tuner_obj_of_valid (tuner : String) (tsk : Task)
    (h : tuner ∈ valid_tuners) :
    create_tuner_obj tuner tsk = .ok (tuner_obj_for tuner) := by
  simp only [valid_tuners, List.mem_cons, List.not_mem_nil, or_false] at h
  rcases h with h | h | h | h | h <;> subst h <;> rfl

theorem create_tuner_obj_of_invalid (tuner : String) (tsk : Task)
    (h : tuner ∉ valid_tuners) :
    create_tuner_obj tuner tsk = .error ("Invalid tuner: " ++ tuner) := by
  simp only [valid_tuners, List.mem_cons, List.not_mem_nil, or_false, not_or] at h
  obtain ⟨h1, h2, h3, h4, h5⟩ := h
  simp [create_tuner_obj, h1, h2, h3, h4, h5]

theorem tune_kernels_go_of_valid (total : Nat) (measure_option : MeasureOption)
    (tuner : String) (n_trial : Nat) (early_stopping : Option Nat)
    (log_filename : String) (h : tuner ∈ valid_tuners) :
    ∀ (l : List Task) (i : Nat),
      tune_kernels_go total measure_option tuner n_trial early_stopping log_filename l i =
        ((l.enumFrom i).map
          (tune_event_for measure_option tuner n_trial early_stopping log_filename total),
         none) := by
  intro l
  induction l with
  | nil => intro i; rfl
  | cons tsk rest ih =>
    intro i
    simp only [tune_kernels_go, create_tuner_obj_of_valid tuner tsk h, ih (i + 1),
      List.enumFrom, List.map]
    rfl

/-- With a recognized tuner name `tune_kernels` raises nothing and produces
one `tune` call per task, walking the reversed task list. -/
theorem tune_kernels_of_valid (tasks : List Task) (measure_option : MeasureOption)
    (tuner : String) (n_trial : Nat) (early_stopping : Option Nat)
    (log_filename : String) (h : tuner ∈ valid_tuners) :
    tune_kernels tasks measure_option tuner n_trial early_stopping log_filename =
      (tasks.reverse.enum.map
        (tune_event_for measure_option tuner n_trial early_stopping log_filename
          tasks.length),
       none) := by
  simp only [tune_kernels, List.enum,
    tune_kernels_go_of_valid tasks.length measure_option tuner n_trial early_stopping
      log_filename h]

theorem tune_kernels_xgb_err (tasks : List Task) (measure_option : MeasureOption)
    (n_trial : Nat) (early_stopping : Option Nat) (log_filename : String) :
    (tune_kernels tasks measure_option "xgb" n_trial early_stopping log_filename).2 =
      none := by
  rw [tune_kernels_of_valid tasks measure_option "xgb" n_trial early_stopping log_filename
    (by simp [valid_tuners])]

/-! ### Helper lemmas -/

theorem contains_iff_mem {l : List String} {a : String} :
    l.contains a = true ↔ a ∈ l := List.elem_iff

theorem string_append_left_cancel {a b c : String} (h : a ++ b = a ++ c) : b = c := by
  have hd := congrArg String.data h
  rw [String.data_append, String.data_append] at hd
  exact String.ext (List.append_cancel_left hd)

/-- The two log paths of one run are always distinct. -/
theorem kernel_log_ne_graph_log (stem : String) :
    stem ++ "_kernel.log" ≠ stem ++ "_graph.log" := by
  intro h
  have := string_append_left_cancel h
  exact absurd this (by decide)

theorem delete_if_exists_fst (fs : List String) (p : String) :
    (delete_if_exists fs p).1 = fs.filter (fun q => q != p) := by
  unfold delete_if_exists
  split
  · rfl
  · next h =>
    symm
    apply List.filter_eq_self.mpr
    intro a ha
    simp only [bne_iff_ne, ne_eq]
    intro heq
    exact h (contains_iff_mem.mpr (heq ▸ ha))

theorem contains_filter_ne (fs : List String) (k g : String) (hne : g ≠ k) :
    (fs.filter (fun q => q != k)).contains g = fs.contains g := by
  by_cases hg : g ∈ fs
  · have h1 : g ∈ fs.filter (fun q => q != k) :=
      List.mem_filter.mpr ⟨hg, by simp [hne]⟩
    rw [contains_iff_mem.mpr h1, contains_iff_mem.mpr hg]
  · have h1 : g ∉ fs.filter (fun q => q != k) := fun h => hg (List.mem_filter.mp h).1
    have e1 : (fs.filter (fun q => q != k)).contains g = false := by
      by_contra h
      exact h1 (contains_iff_mem.mp (eq_true_of_ne_false h))
    have e2 : fs.contains g = false := by
      by_contra h
      exact hg (contains_iff_mem.mp (eq_true_of_ne_false h))
    rw [e1, e2]

@[simp] theorem delete_if_exists_graph_calls (fs : List String) (p : String) :
    graph_calls (delete_if_exists fs p).2 = [] := by
  unfold delete_if_exists; split <;> rfl

@[simp] theorem delete_if_exists_kernels_calls (fs : List String) (p : String) :
    kernels_calls (delete_if_exists fs p).2 = [] := by
  unfold delete_if_exists; split <;> rfl

theorem delete_if_exists_removals (fs : List String) (p : String) :
    removals (delete_if_exists fs p).2 = if fs.contains p then [p] else [] := by
  unfold delete_if_exists; split <;> simp_all [removals]

@[simp] theorem autotvm_tuning_opt_tuner (target : Target) (log_file dtype : String) :
    (autotvm_tuning_opt target log_file dtype).tuner = "xgb" := rfl

@[simp] theorem autotvm_tuning_opt_early_stopping (target : Target) (log_file dtype : String) :
    (autotvm_tuning_opt target log_file dtype).early_stopping = none := rfl

@[simp] theorem autotvm_tuning_opt_log_filename (target : Target) (log_file dtype : String) :
    (autotvm_tuning_opt target log_file dtype).log_filename = log_file := rfl

/-- The run `autotvm_tune` never raises: its tuner is always `"xgb"`, which
`tune_kernels` recognizes. -/
theorem autotvm_tune_err (network : String) (target : Target) (input_name stem : String)
    (fs : List String) (tasks : List Task) :
    (autotvm_tune network target input_name stem fs tasks).err = none := by
  unfold autotvm_tune
  simp only [autotvm_tuning_opt_tuner, autotvm_tuning_opt_early_stopping,
    autotvm_tuning_opt_log_filename, tune_kernels_xgb_err]
  split
  · rfl
  · split <;> rfl

/-- Exactly one `tune_kernels` invocation per run, always on the kernel log
with the options from `autotvm_tuning_opt`. -/
theorem autotvm_tune_kernels_calls (network : String) (target : Target)
    (input_name stem : String) (fs : List String) (tasks : List Task) :
    kernels_calls (autotvm_tune network target input_name stem fs tasks).events =
      [(autotvm_tuning_opt target (stem ++ "_kernel.log") "float32",
        (tune_kernels tasks
          (autotvm_tuning_opt target (stem ++ "_kernel.log") "float32").measure_option
          "xgb" 1000 none (stem ++ "_kernel.log")).1,
        (tune_kernels tasks
          (autotvm_tuning_opt target (stem ++ "_kernel.log") "float32").measure_option
          "xgb" 1000 none (stem ++ "_kernel.log")).2)] := by
  unfold autotvm_tune
  simp only [autotvm_tuning_opt_tuner, autotvm_tuning_opt_early_stopping,
    autotvm_tuning_opt_log_filename]
  split
  · simp [kernels_calls]
  · split <;> simp [kernels_calls, graph_calls]

/-- The graph pass runs exactly when the network is not `"bert"` and the
target has a `"cpu"` key, reading the kernel log and writing the graph
log. -/
theorem autotvm_tune_graph_calls (network : String) (target : Target)
    (input_name stem : String) (fs : List String) (tasks : List Task) :
    graph_calls (autotvm_tune network target input_name stem fs tasks).events =
      (if network ≠ "bert" ∧ target.keys.contains "cpu" = true then
        [tune_graph (stem ++ "_kernel.log") (stem ++ "_graph.log") target input_name true]
      else []) := by
  unfold autotvm_tune
  simp only [autotvm_tuning_opt_tuner, autotvm_tuning_opt_early_stopping,
    autotvm_tuning_opt_log_filename]
  split
  · next hb =>
    simp [graph_calls, hb]
  · next hb =>
    rw [tune_kernels_xgb_err] at *
    split
    · next hc =>
      simp only [hb, hc.2, ne_eq, not_false_iff, true_and, if_pos]
      simp [graph_calls]
    · next hc =>
      have hc' : ¬ target.keys.contains "cpu" = true := fun h => hc ⟨rfl, h⟩
      have hmem : "cpu" ∉ target.keys := fun h => hc' (contains_iff_mem.mpr h)
      simp [graph_calls, hb, hc', hmem]

/-- Every `tune` call records `n_trial = min(n_trial, len(tsk.config_space))`
for its own task, whatever the tuner name. -/
theorem tune_kernels_go_n_trial (total : Nat) (measure_option : MeasureOption)
    (tuner : String) (n_trial : Nat) (early_stopping : Option Nat)
    (log_filename : String) :
    ∀ (l : List Task) (i : Nat) (ev : TuneEvent),
      ev ∈ (tune_kernels_go total measure_option tuner n_trial early_stopping
        log_filename l i).1 →
      ev.n_trial = min n_trial ev.task.config_space_len := by
  intro l
  induction l with
  | nil => intro i ev h; simp [tune_kernels_go] at h
  | cons tsk rest ih =>
    intro i ev h
    unfold tune_kernels_go at h
    cases hc : create_tuner_obj tuner tsk with
    | error e => rw [hc] at h; simp at h
    | ok obj =>
      rw [hc] at h
      simp only [List.mem_cons] at h
      rcases h with h | h
      · subst h; rfl
      · exact ih (i + 1) ev h

/-- A sample `MeasureOption` used by concrete witnesses. -/
def mo0 : MeasureOption :=
  { builder := { timeout := none },
    runner := { number := 1, repeat_n := 10, min_repeat_ms := 0,
                timeout := none, enable_cpu_cache_flush := true } }

/-! ### The claims -/

/-- Claim C5: `autotvm_tuning_opt` selects measure options by device class —
CPU targets get `LocalRunner(number=1, repeat=10, min_repeat_ms=0,
enable_cpu_cache_flush=True)`; others get `LocalBuilder(timeout=10)` with
`LocalRunner(number=20, repeat=3, timeout=4, min_repeat_ms=150)`; both cases
set tuner `"xgb"`, `early_stopping=None` and the given log file. -/
theorem claim_C5 (target : Target) (log_file dtype : String) :
    (autotvm_tuning_opt target log_file dtype).tuner = "xgb" ∧
    (autotvm_tuning_opt target log_file dtype).early_stopping = none ∧
    (autotvm_tuning_opt target log_file dtype).log_filename = log_file ∧
    (target.keys.contains "cpu" = true →
      (autotvm_tuning_opt target log_file dtype).measure_option =
        { builder := { timeout := none },
          runner := { number := 1, repeat_n := 10, min_repeat_ms := 0,
                      timeout := none, enable_cpu_cache_flush := true } }) ∧
    (target.keys.contains "cpu" = false →
      (autotvm_tuning_opt target log_file dtype).measure_option =
        { builder := { timeout := some 10 },
          runner := { number := 20, repeat_n := 3, min_repeat_ms := 150,
                      timeout := some 4, enable_cpu_cache_flush := false } }) := by
  refine ⟨rfl, rfl, rfl, fun h => ?_, fun h => ?_⟩
  · simp [autotvm_tuning_opt, contains_iff_mem.mp h]
  · have hmem : "cpu" ∉ target.keys := fun hm => by
      rw [contains_iff_mem.mpr hm] at h; cases h
    simp [autotvm_tuning_opt, hmem]

/-- Witness for C5 at a CPU and at a GPU target. -/
theorem claim_C5_witness :
    (autotvm_tuning_opt ⟨"llvm", ["cpu"]⟩ "k.log" "float32").measure_option =
      { builder := { timeout := none },
        runner := { number := 1, repeat_n := 10, min_repeat_ms := 0,
                    timeout := none, enable_cpu_cache_flush := true } } ∧
    (autotvm_tuning_opt ⟨"cuda", ["cuda", "gpu"]⟩ "k.log" "float32").measure_option =
      { builder := { timeout := some 10 },
        runner := { number := 20, repeat_n := 3, min_repeat_ms := 150,
                    timeout := some 4, enable_cpu_cache_flush := false } } :=
  ⟨(claim_C5 ⟨"llvm", ["cpu"]⟩ "k.log" "float32").2.2.2.1 (by decide),
   (claim_C5 ⟨"cuda", ["cuda", "gpu"]⟩ "k.log" "float32").2.2.2.2 (by decide)⟩

/-- Claim C3: on a non-empty task list, an unrecognized tuner name makes
`tune_kernels` raise `ValueError` with no `tune` call recorded (so before any
tuning trial), while the five recognized names never raise. -/
theorem claim_C3 (tasks : List Task) (measure_option : MeasureOption) (tuner : String)
    (n_trial : Nat) (early_stopping : Option Nat) (log_filename : String)
    (hne : tasks ≠ []) :
    (tuner ∉ valid_tuners →
      tune_kernels tasks measure_option tuner n_trial early_stopping log_filename =
        ([], some ("Invalid tuner: " ++ tuner))) ∧
    (tuner ∈ valid_tuners →
      (tune_kernels tasks measure_option tuner n_trial early_stopping
        log_filename).2 = none) := by
  constructor
  · intro h
    have hrev : tasks.reverse ≠ [] := by
      simpa using hne
    obtain ⟨a, l', hl⟩ := List.exists_cons_of_ne_nil hrev
    unfold tune_kernels
    rw [hl]
    unfold tune_kernels_go
    rw [create_tuner_obj_of_invalid tuner a h]
  · intro h
    rw [tune_kernels_of_valid tasks measure_option tuner n_trial early_stopping
      log_filename h]

/-- Witness for C3: a made-up tuner name raises with an empty trace, `"ga"`
does not raise. -/
theorem claim_C3_witness :
    tune_kernels [⟨"T", 4⟩] mo0 "simulated-annealing" 1000 none "k.log" =
      ([], some "Invalid tuner: simulated-annealing") ∧
    (tune_kernels [⟨"T", 4⟩] mo0 "ga" 1000 none "k.log").2 = none :=
  ⟨(claim_C3 [⟨"T", 4⟩] mo0 "simulated-annealing" 1000 none "k.log" (by decide)).1
      (by decide),
   (claim_C3 [⟨"T", 4⟩] mo0 "ga" 1000 none "k.log" (by decide)).2 (by decide)⟩

/-- Claim C6: with a recognized tuner name, `tune_kernels` makes exactly one
`tune` call per task, walks the tasks in reversed order, builds one tuner
object per call, and passes the progress-bar callback and the
log-to-file callback on the configured log file. -/
theorem claim_C6 (tasks : List Task) (measure_option : MeasureOption) (tuner : String)
    (n_trial : Nat) (early_stopping : Option Nat) (log_filename : String)
    (h : tuner ∈ valid_tuners) :
    (tune_kernels tasks measure_option tuner n_trial early_stopping
      log_filename).1.length = tasks.length ∧
    tune_kernels tasks measure_option tuner n_trial early_stopping log_filename =
      (tasks.reverse.enum.map
        (tune_event_for measure_option tuner n_trial early_stopping log_filename
          tasks.length),
       none) := by
  rw [tune_kernels_of_valid tasks measure_option tuner n_trial early_stopping
    log_filename h]
  refine ⟨?_, rfl⟩
  simp [List.enum_length]

/-- Witness for C6: two tasks are tuned in reversed order with the right
trial counts, labels and callbacks. -/
theorem claim_C6_witness :
    tune_kernels [⟨"a", 2⟩, ⟨"b", 3⟩] mo0 "xgb" 5 none "k.log" =
      ([{ tuner_obj := .xgb "rank", task := ⟨"b", 3⟩, n_trial := 3,
          early_stopping := none, measure_option := mo0,
          callbacks := [.progress_bar 3 "[Task  1/ 2] ", .log_to_file "k.log"] },
        { tuner_obj := .xgb "rank", task := ⟨"a", 2⟩, n_trial := 2,
          early_stopping := none, measure_option := mo0,
          callbacks := [.progress_bar 2 "[Task  2/ 2] ", .log_to_file "k.log"] }],
       none) := by
  have h := (claim_C6 [⟨"a", 2⟩, ⟨"b", 3⟩] mo0 "xgb" 5 none "k.log" (by decide)).2
  rw [h]
  decide

/-- Claim C9: the number of trials requested per task is
`min(n_trial, len(tsk.config_space))`; it never exceeds the config-space
size, and with the default `n_trial` (1000, which is what `autotvm_tune`
always passes) it never exceeds 1000. -/
theorem claim_C9 (tasks : List Task) (measure_option : MeasureOption) (tuner : String)
    (n_trial : Nat) (early_stopping : Option Nat) (log_filename : String) :
    (∀ ev ∈ (tune_kernels tasks measure_option tuner n_trial early_stopping
        log_filename).1,
      ev.n_trial = min n_trial ev.task.config_space_len ∧
      ev.n_trial ≤ ev.task.config_space_len ∧
      (n_trial = 1000 → ev.n_trial ≤ 1000)) ∧
    (∀ (network : String) (target : Target) (input_name stem : String)
        (fs : List String),
      ∀ c ∈ kernels_calls
          (autotvm_tune network target input_name stem fs tasks).events,
        ∀ ev ∈ c.2.1, ev.n_trial ≤ 1000 ∧ ev.n_trial ≤ ev.task.config_space_len) := by
  have key : ∀ (mo : MeasureOption) (tu : String) (nt : Nat) (es : Option Nat)
      (lf : String), ∀ ev ∈ (tune_kernels tasks mo tu nt es lf).1,
      ev.n_trial = min nt ev.task.config_space_len := by
    intro mo tu nt es lf ev hev
    exact tune_kernels_go_n_trial tasks.length mo tu nt es lf tasks.reverse 0 ev hev
  constructor
  · intro ev hev
    have h1 := key measure_option tuner n_trial early_stopping log_filename ev hev
    refine ⟨h1, ?_, ?_⟩
    · rw [h1]; exact min_le_right _ _
    · intro hn; rw [h1, hn]; exact le_trans (min_le_left _ _) (le_refl 1000)
  · intro network target input_name stem fs c hc ev hev
    rw [autotvm_tune_kernels_calls] at hc
    simp only [List.mem_singleton] at hc
    subst hc
    have h1 := key (autotvm_tuning_opt target (stem ++ "_kernel.log")
      "float32").measure_option "xgb" 1000 none (stem ++ "_kernel.log") ev hev
    constructor
    · rw [h1]; exact min_le_left _ _
    · rw [h1]; exact min_le_right _ _

/-- Witness for C9 at a task whose config space has 7 points. -/
theorem claim_C9_witness :
    TuneEvent.n_trial
        { tuner_obj := .xgb "rank", task := ⟨"a", 7⟩, n_trial := 7,
          early_stopping := none, measure_option := mo0,
          callbacks := [.progress_bar 7 "[Task  1/ 1] ", .log_to_file "k.log"] } =
      min 1000 7 ∧
    (7 : Nat) ≤ 7 ∧ (7 : Nat) ≤ 1000 := by
  have h := (claim_C9 [⟨"a", 7⟩] mo0 "xgb" 1000 none "k.log").1
    { tuner_obj := .xgb "rank", task := ⟨"a", 7⟩, n_trial := 7,
      early_stopping := none, measure_option := mo0,
      callbacks := [.progress_bar 7 "[Task  1/ 1] ", .log_to_file "k.log"] }
    (by decide)
  exact ⟨h.1, h.2.1, h.2.2 rfl⟩

theorem delete_if_exists_snd (fs : List String) (p : String) :
    (delete_if_exists fs p).2 =
      if fs.contains p then [RunEvent.removeFile p] else [] := by
  unfold delete_if_exists; split <;> simp_all

theorem autotvm_tune_fs (network : String) (target : Target) (input_name stem : String)
    (fs : List String) (tasks : List Task) :
    (autotvm_tune network target input_name stem fs tasks).fs =
      (delete_if_exists (delete_if_exists fs (stem ++ "_kernel.log")).1
        (stem ++ "_graph.log")).1 := by
  simp only [autotvm_tune]
  split
  · rfl
  · split <;> rfl

/-- The event trace of a run always starts with the (conditional) deletion of
the kernel log and then the graph log, followed by the network load; no
deletion happens later. -/
theorem autotvm_tune_events_shape (network : String) (target : Target)
    (input_name stem : String) (fs : List String) (tasks : List Task) :
    ∃ rest, (autotvm_tune network target input_name stem fs tasks).events =
        (delete_if_exists fs (stem ++ "_kernel.log")).2 ++
        (delete_if_exists (delete_if_exists fs (stem ++ "_kernel.log")).1
          (stem ++ "_graph.log")).2 ++
        RunEvent.getNetwork network :: rest ∧
      removals rest = [] ∧ (∃ ops, RunEvent.extractTasks ops ∈ rest) := by
  unfold autotvm_tune
  simp only [autotvm_tuning_opt_tuner, autotvm_tuning_opt_early_stopping,
    autotvm_tuning_opt_log_filename]
  split
  · refine ⟨[RunEvent.extractTasks ["nn.batch_matmul", "nn.dense"],
      RunEvent.kernelsTuned
        (autotvm_tuning_opt target (stem ++ "_kernel.log") "float32")
        (tune_kernels tasks
          (autotvm_tuning_opt target (stem ++ "_kernel.log") "float32").measure_option
          "xgb" 1000 none (stem ++ "_kernel.log")).1
        (tune_kernels tasks
          (autotvm_tuning_opt target (stem ++ "_kernel.log") "float32").measure_option
          "xgb" 1000 none (stem ++ "_kernel.log")).2],
      ?_, ?_, ?_⟩
    · rfl
    · simp [removals]
    · exact ⟨["nn.batch_matmul", "nn.dense"], by simp⟩
  · split
    · refine ⟨[RunEvent.convertLayout "nn.conv2d" ["NCHW", "default"],
        RunEvent.extractTasks ["nn.conv2d"],
        RunEvent.kernelsTuned
          (autotvm_tuning_opt target (stem ++ "_kernel.log") "float32")
          (tune_kernels tasks
            (autotvm_tuning_opt target (stem ++ "_kernel.log") "float32").measure_option
            "xgb" 1000 none (stem ++ "_kernel.log")).1
          (tune_kernels tasks
            (autotvm_tuning_opt target (stem ++ "_kernel.log") "float32").measure_option
            "xgb" 1000 none (stem ++ "_kernel.log")).2,
        RunEvent.graphTuned
          (tune_graph (stem ++ "_kernel.log") (stem ++ "_graph.log") target
            input_name true)],
        ?_, ?_, ?_⟩
      · simp only [List.append_assoc, List.cons_append, List.nil_append]
      · simp [removals]
      · exact ⟨["nn.conv2d"], by simp⟩
    · refine ⟨[RunEvent.convertLayout "nn.conv2d" ["NCHW", "default"],
        RunEvent.extractTasks ["nn.conv2d"],
        RunEvent.kernelsTuned
          (autotvm_tuning_opt target (stem ++ "_kernel.log") "float32")
          (tune_kernels tasks
            (autotvm_tuning_opt target (stem ++ "_kernel.log") "float32").measure_option
            "xgb" 1000 none (stem ++ "_kernel.log")).1
          (tune_kernels tasks
            (autotvm_tuning_opt target (stem ++ "_kernel.log") "float32").measure_option
            "xgb" 1000 none (stem ++ "_kernel.log")).2],
        ?_, ?_, ?_⟩
      · rfl
      · simp [removals]
      · exact ⟨["nn.conv2d"], by simp⟩

/-- Claim C2: the graph-level optimizer runs iff the network is not `"bert"`
and `"cpu"` is among the keys of the target; it reads the kernel log as records
and writes its result to the graph log. -/
theorem claim_C2 (network : String) (target : Target) (input_name stem : String)
    (fs : List String) (tasks : List Task) :
    graph_calls (autotvm_tune network target input_name stem fs tasks).events =
      (if network ≠ "bert" ∧ target.keys.contains "cpu" = true then
        [tune_graph (stem ++ "_kernel.log") (stem ++ "_graph.log") target
          input_name true]
      else []) :=
  autotvm_tune_graph_calls network target input_name stem fs tasks

/-- Claim C4: each of the two log files is deleted at the start of a run if
it exists (and only then), before the network is loaded and hence before any
task extraction or tuning; a missing file causes no error. -/
theorem claim_C4 (network : String) (target : Target) (input_name stem : String)
    (fs : List String) (tasks : List Task) :
    (autotvm_tune network target input_name stem fs tasks).fs =
      (fs.filter (fun q => q != stem ++ "_kernel.log")).filter
        (fun q => q != stem ++ "_graph.log") ∧
    (autotvm_tune network target input_name stem fs tasks).err = none ∧
    ∃ rest, (autotvm_tune network target input_name stem fs tasks).events =
        (if fs.contains (stem ++ "_kernel.log") then
          [RunEvent.removeFile (stem ++ "_kernel.log")] else []) ++
        (if fs.contains (stem ++ "_graph.log") then
          [RunEvent.removeFile (stem ++ "_graph.log")] else []) ++
        RunEvent.getNetwork network :: rest ∧
      removals rest = [] ∧ (∃ ops, RunEvent.extractTasks ops ∈ rest) := by
  refine ⟨?_, autotvm_tune_err network target input_name stem fs tasks, ?_⟩
  · rw [autotvm_tune_fs, delete_if_exists_fst, delete_if_exists_fst]
  · obtain ⟨rest, hev, hrem, hex⟩ :=
      autotvm_tune_events_shape network target input_name stem fs tasks
    rw [delete_if_exists_snd, delete_if_exists_snd, delete_if_exists_fst,
      contains_filter_ne fs (stem ++ "_kernel.log") (stem ++ "_graph.log")
        (Ne.symm (kernel_log_ne_graph_log stem))] at hev
    exact ⟨rest, hev, hrem, hex⟩

/-- Each run directs its kernel-tuning records to `<stem>_kernel.log` and any
graph-tuning output to `<stem>_graph.log`. -/
theorem autotvm_tune_log_paths (network : String) (target : Target)
    (input_name stem : String) (fs : List String) (tasks : List Task) :
    (kernels_calls (autotvm_tune network target input_name stem fs tasks).events).map
        (fun c => c.1.log_filename) = [stem ++ "_kernel.log"] ∧
    ∀ c ∈ graph_calls (autotvm_tune network target input_name stem fs tasks).events,
      c.records = stem ++ "_kernel.log" ∧ c.opt_sch_file = stem ++ "_graph.log" := by
  constructor
  · rw [autotvm_tune_kernels_calls]; simp
  · intro c hc
    rw [autotvm_tune_graph_calls] at hc
    split at hc
    · simp only [List.mem_singleton] at hc; subst hc; exact ⟨rfl, rfl⟩
    · simp at hc

/-- The main loop never raises, tunes exactly the given networks in order,
and passes each run the `log_prefix` built from the log directory, the
device-class name and the network. -/
theorem main_loop_spec (target : Target) (inputname logdir : String)
    (task_oracle : String → List Task) :
    ∀ (networks fs : List String),
      (main_loop target inputname logdir task_oracle fs networks).err = none ∧
      tuned_networks
          (main_loop target inputname logdir task_oracle fs networks).events =
        networks ∧
      tuned_stems (main_loop target inputname logdir task_oracle fs networks).events =
        networks.map (fun nw =>
          os_path_join logdir ("autotvm_" ++ target_name_of target ++ "_" ++ nw)) ∧
      ∀ nw stem evs,
        MainEvent.tuned nw stem evs ∈
            (main_loop target inputname logdir task_oracle fs networks).events →
        stem = os_path_join logdir ("autotvm_" ++ target_name_of target ++ "_" ++ nw) ∧
        (kernels_calls evs).map (fun c => c.1.log_filename) =
          [stem ++ "_kernel.log"] ∧
        ∀ c ∈ graph_calls evs, c.records = stem ++ "_kernel.log" ∧
          c.opt_sch_file = stem ++ "_graph.log" := by
  intro networks
  induction networks with
  | nil =>
    intro fs
    refine ⟨rfl, rfl, rfl, ?_⟩
    intro nw stem evs h
    simp [main_loop] at h
  | cons nw rest ih =>
    intro fs
    simp only [main_loop, autotvm_tune_err]
    obtain ⟨ih1, ih2, ih3, ih4⟩ :=
      ih (autotvm_tune nw target inputname
        (os_path_join logdir ("autotvm_" ++ target_name_of target ++ "_" ++ nw)) fs
        (task_oracle nw)).fs
    refine ⟨ih1, ?_, ?_, ?_⟩
    · simp [tuned_networks, ih2]
    · simp [tuned_stems, ih3]
    · intro nw' stem' evs' h
      simp only [List.mem_cons] at h
      rcases h with h | h
      · injection h with hnw hstem hevs
        subst hnw; subst hstem; subst hevs
        exact ⟨rfl,
          (autotvm_tune_log_paths nw' target inputname _ fs (task_oracle nw')).1,
          (autotvm_tune_log_paths nw' target inputname _ fs (task_oracle nw')).2⟩
      · exact ih4 nw' stem' evs' h

theorem parse_args_network_ok_eq {v w : Option String}
    (h : parse_args_network v = .ok w) : w = v := by
  cases v with
  | none =>
    unfold parse_args_network at h
    injection h with h
    exact h.symm
  | some s =>
    unfold parse_args_network at h
    dsimp only at h
    by_cases hc : network_choices.contains s = true
    · rw [if_pos hc] at h
      injection h with h
      exact h.symm
    · rw [if_neg hc] at h
      cases h

/-- On success, the events of `__main__` are an optional `mkdir` call
followed by the events of the main loop over the selected networks. -/
theorem main_run_ok (args : Args) (target_keys fs0 : List String)
    (task_oracle : String → List Task) (out : List String × List MainEvent)
    (h : main_run args target_keys fs0 task_oracle = .ok out) :
    ∃ (mk_evs fs1 : _),
      (mk_evs = ([] : List MainEvent) ∨ mk_evs = [MainEvent.mkdirCall args.logdir]) ∧
      out.2 = mk_evs ++
        (main_loop { raw := args.target, keys := target_keys } args.inputname
          args.logdir task_oracle fs1 (select_networks args.network)).events := by
  unfold main_run at h
  cases hp : parse_args_network args.network with
  | error e => rw [hp] at h; cases h
  | ok nwopt =>
    rw [hp] at h
    rw [parse_args_network_ok_eq hp] at h
    by_cases he : os_path_exists fs0 args.logdir = true
    · simp only [he, if_true] at h
      rw [(main_loop_spec { raw := args.target, keys := target_keys } args.inputname
        args.logdir task_oracle (select_networks args.network) fs0).1] at h
      injection h with h
      exact ⟨[], fs0, Or.inl rfl, by rw [← h]⟩
    · simp only [he, if_false, Bool.false_eq_true] at h
      cases hm : os_mkdir fs0 args.logdir with
      | error e => rw [hm] at h; cases h
      | ok fs1 =>
        rw [hm] at h
        dsimp only at h
        rw [(main_loop_spec { raw := args.target, keys := target_keys } args.inputname
          args.logdir task_oracle (select_networks args.network) fs1).1] at h
        injection h with h
        exact ⟨[MainEvent.mkdirCall args.logdir], fs1, Or.inr rfl, by rw [← h]⟩

/-- Claim C7: the `--thread` flag has no effect — two invocations identical
except for `thread` produce identical outcomes (same networks tuned, same
options, same filesystem effects, same errors). -/
theorem claim_C7 (args : Args) (t1 t2 : Int) (target_keys fs0 : List String)
    (task_oracle : String → List Task) :
    main_run { args with thread := t1 } target_keys fs0 task_oracle =
      main_run { args with thread := t2 } target_keys fs0 task_oracle := by
  cases args
  rfl

/-- Claim C8: `--network` accepts exactly `resnet-50`, `mobilenet_v2`,
`bert`, `all`; omitted or `all` selects all three networks in the order
resnet-50, mobilenet_v2, bert; any other accepted value selects exactly that
network; and a successful `__main__` run tunes exactly the selected
networks. -/
theorem claim_C8 :
    (∀ s : String,
      (parse_args_network (some s) = .ok (some s) ↔ s ∈ network_choices)) ∧
    network_choices = ["resnet-50", "mobilenet_v2", "bert", "all"] ∧
    parse_args_network none = .ok none ∧
    select_networks none = ["resnet-50", "mobilenet_v2", "bert"] ∧
    (∀ s : String, select_networks (some s) =
      if s = "all" then ["resnet-50", "mobilenet_v2", "bert"] else [s]) ∧
    (∀ (args : Args) (target_keys fs0 : List String)
        (task_oracle : String → List Task) (out : List String × List MainEvent),
      main_run args target_keys fs0 task_oracle = .ok out →
      tuned_networks out.2 = select_networks args.network) := by
  refine ⟨?_, rfl, rfl, rfl, fun s => rfl, ?_⟩
  · intro s
    constructor
    · intro h
      by_cases hc : network_choices.contains s = true
      · exact contains_iff_mem.mp hc
      · unfold parse_args_network at h
        dsimp only at h
        rw [if_neg hc] at h
        cases h
    · intro h
      unfold parse_args_network
      dsimp only
      rw [if_pos (contains_iff_mem.mpr h)]
  · intro args target_keys fs0 task_oracle out h
    obtain ⟨mk_evs, fs1, hmk, hout⟩ := main_run_ok args target_keys fs0 task_oracle out h
    rw [hout, tuned_networks_append]
    have h1 : tuned_networks mk_evs = [] := by
      rcases hmk with h' | h' <;> subst h' <;> rfl
    rw [h1, List.nil_append,
      (main_loop_spec { raw := args.target, keys := target_keys } args.inputname
        args.logdir task_oracle (select_networks args.network) fs1).2.1]

/-- Sample arguments with `--network all` used by the C8 witness. -/
def args_all : Args :=
  { network := some "all", target := "cuda", logdir := "logs", thread := 1,
    inputname := "data" }

/-- The result of running `__main__` on `args_all` over a GPU target. -/
def out_all : List String × List MainEvent :=
  match main_run args_all ["cuda", "gpu"] ["logs"] (fun _ => []) with
  | .ok out => out
  | .error _ => ([], [])

/-- Witness for C8: with `--network all`, exactly the three networks are
tuned, in order. -/
theorem claim_C8_witness :
    tuned_networks out_all.2 = ["resnet-50", "mobilenet_v2", "bert"] := by
  have h := claim_C8.2.2.2.2.2 args_all ["cuda", "gpu"] ["logs"] (fun _ => [])
    out_all rfl
  rw [h]
  decide

/-- Claim C10: when the log directory does not exist, `__main__` creates it
with a single-level `os.mkdir`; if its parent directory does not exist
either, the run fails with `FileNotFoundError` instead of creating the
intermediate directories. -/
theorem claim_C10 (args : Args) (target_keys fs0 : List String)
    (task_oracle : String → List Task)
    (hparse : parse_args_network args.network = .ok args.network)
    (hnex : os_path_exists fs0 args.logdir = false) :
    (dirname (normalize_path args.logdir) ≠ "" ∧
       fs0.contains (dirname (normalize_path args.logdir)) = false →
      main_run args target_keys fs0 task_oracle =
        .error ("FileNotFoundError: " ++ args.logdir)) ∧
    (dirname (normalize_path args.logdir) = "" ∨
       fs0.contains (dirname (normalize_path args.logdir)) = true →
      os_mkdir fs0 args.logdir = .ok (normalize_path args.logdir :: fs0)) := by
  constructor
  · rintro ⟨h1, h2⟩
    unfold main_run
    rw [hparse]
    have hif : ¬ os_path_exists fs0 args.logdir = true := by
      rw [hnex]; simp
    rw [if_neg hif]
    have hmk : os_mkdir fs0 args.logdir =
        .error ("FileNotFoundError: " ++ args.logdir) := by
      unfold os_mkdir
      rw [if_pos ⟨h1, by rw [h2]; simp⟩]
    rw [hmk]
  · intro h
    unfold os_mkdir
    have hcond : ¬ (dirname (normalize_path args.logdir) ≠ "" ∧
        ¬ fs0.contains (dirname (normalize_path args.logdir)) = true) := by
      rcases h with h | h
      · exact fun hc => hc.1 h
      · exact fun hc => hc.2 h
    rw [if_neg hcond]
    have hq : fs0.contains (normalize_path args.logdir) = false := hnex
    rw [if_neg (by rw [hq]; simp)]

/-- Witness for C10: a two-deep missing log directory aborts the run; a
top-level missing one is created as the single new entry. -/
theorem claim_C10_witness :
    main_run ⟨some "bert", "cuda", "a/b/c", 1, "data"⟩ ["cuda", "gpu"] []
        (fun _ => []) =
      .error ("FileNotFoundError: " ++ "a/b/c") ∧
    os_mkdir [] "logs" = .ok ["logs"] := by
  constructor
  · exact (claim_C10 ⟨some "bert", "cuda", "a/b/c", 1, "data"⟩ ["cuda", "gpu"] []
      (fun _ => []) rfl rfl).1 ⟨by decide, rfl⟩
  · exact ((claim_C10 ⟨some "bert", "cuda", "logs", 1, "data"⟩ [] [] (fun _ => [])
      rfl rfl).2 (Or.inl rfl)).trans rfl

/-- Definition following the words of claim C1, NOT the source: the kernel-log
path with `<target>` taken to be the raw compilation target string from the
command line. -/
def claimed_kernel_log (logdir target_raw network : String) : String :=
  os_path_join logdir ("autotvm_" ++ target_raw ++ "_" ++ network) ++ "_kernel.log"

/-- Sample arguments: an LLVM (CPU) target string, used to refute C1 as
stated. -/
def args_cex : Args :=
  { network := some "resnet-50", target := "llvm -mcpu=core-avx2",
    logdir := "logs", thread := 1, inputname := "data" }

/-- The result of running `__main__` on `args_cex`. -/
def out_cex : List String × List MainEvent :=
  match main_run args_cex ["cpu"] ["logs"] (fun _ => []) with
  | .ok out => out
  | .error _ => ([], [])

/-- Counterexample to claim C1 as stated: on target string
`"llvm -mcpu=core-avx2"` (whose keys contain `"cpu"`), the log stem of the run
is `logs/autotvm_cpu_resnet-50`, so its kernel log is NOT at the path built
from the raw command-line target string as the claim asserts. -/
theorem claim_C1_counterexample :
    main_run args_cex ["cpu"] ["logs"] (fun _ => []) = .ok out_cex ∧
    tuned_stems out_cex.2 = ["logs/autotvm_cpu_resnet-50"] ∧
    claimed_kernel_log args_cex.logdir args_cex.target "resnet-50" =
      "logs/autotvm_llvm -mcpu=core-avx2_resnet-50_kernel.log" ∧
    ("logs/autotvm_cpu_resnet-50" ++ "_kernel.log" ≠
      claimed_kernel_log args_cex.logdir args_cex.target "resnet-50") := by
  refine ⟨rfl, ?_, rfl, ?_⟩
  · decide
  · decide

/-- Claim C1 (amended): for every run over a (target, network) pair the
script uses exactly the two log paths
`<logdir>/autotvm_<tname>_<network>_kernel.log` and `..._graph.log`, where
`<tname>` is `"cpu"` when `"cpu"` is among the keys of the target and `"cuda"`
otherwise (not the raw command-line target string); kernel-tuning records go
to the kernel log and graph-tuning output to the graph log. -/
theorem claim_C1_amended (args : Args) (target_keys fs0 : List String)
    (task_oracle : String → List Task) (out : List String × List MainEvent)
    (h : main_run args target_keys fs0 task_oracle = .ok out) :
    tuned_stems out.2 = (select_networks args.network).map (fun nw =>
      os_path_join args.logdir
        ("autotvm_" ++ (if target_keys.contains "cpu" then "cpu" else "cuda") ++
          "_" ++ nw)) ∧
    ∀ nw stem evs, MainEvent.tuned nw stem evs ∈ out.2 →
      (kernels_calls evs).map (fun c => c.1.log_filename) =
        [stem ++ "_kernel.log"] ∧
      ∀ c ∈ graph_calls evs, c.records = stem ++ "_kernel.log" ∧
        c.opt_sch_file = stem ++ "_graph.log" := by
  obtain ⟨mk_evs, fs1, hmk, hout⟩ := main_run_ok args target_keys fs0 task_oracle out h
  have spec := main_loop_spec { raw := args.target, keys := target_keys }
    args.inputname args.logdir task_oracle (select_networks args.network) fs1
  constructor
  · rw [hout, tuned_stems_append]
    have h1 : tuned_stems mk_evs = [] := by
      rcases hmk with h' | h' <;> subst h' <;> rfl
    rw [h1, List.nil_append, spec.2.2.1]
    rfl
  · intro nw stem evs hmem
    rw [hout] at hmem
    rcases List.mem_append.mp hmem with hmem | hmem
    · rcases hmk with h' | h' <;> subst h' <;> simp at hmem
    · have hp := spec.2.2.2 nw stem evs hmem
      exact ⟨hp.2.1, hp.2.2⟩

/-- Witness for the amended C1 at the concrete LLVM-target input. -/
theorem claim_C1_witness :
    tuned_stems out_cex.2 = ["logs/autotvm_cpu_resnet-50"] := by
  have h := (claim_C1_amended args_cex ["cpu"] ["logs"] (fun _ => []) out_cex rfl).1
  rw [h]
  decide

end TuneAutotvm
